import Mathlib

/-!
Verification of the mini_inventory service core: the status classifier,
the restock policy engine, and the inventory service handlers.

The embedding mirrors `src/utils.py`, `src/main.py` and `src/models.py`:

* product records are a structure with the fields of `models.Product`;
  the `category` field is `Option Category`, matching the pydantic
  `Optional[CategoryEnum]` declaration;
* the JSON-file store is an insertion-ordered association list from
  product id to product, with Python-dict update semantics (an existing
  key keeps its position, a new key is appended);
* each HTTP handler is a function from the loaded store and its
  arguments to the pair of the persisted store and the handler's result
  (`Except ApiError _`); a handler that raises without saving returns
  the input store unchanged;
* Python's float literals `0.5`, `0.25`, `1.2`, `1.1` are modelled by
  the exact rationals `1/2`, `1/4`, `6/5`, `11/10`.  The comparisons
  `stock <= threshold * 0.5` and `* 0.25` are exact in double
  arithmetic (multiplication by a power of two), and for `int(q * 1.2)`
  / `int(q * 1.1)` the rounded double product truncates to the same
  integer as the exact rational product on the whole integer domain of
  the service, so the rational model coincides with the source;
* Python's `int(...)` applied to a float truncates toward zero,
  modelled by `pyTrunc`.
-/

namespace MiniInventory

/-- PriorityEnum from `src/models.py`. -/
inductive Priority where
  | high
  | medium
  | low
deriving DecidableEq, Repr

/-- CategoryEnum from `src/models.py`. -/
inductive Category where
  | high_volume
  | low_volume
deriving DecidableEq, Repr

/-- StatusEnum from `src/models.py`. -/
inductive Status where
  | ok
  | below_threshold
  | out_of_stock
deriving DecidableEq, Repr

/-- Product from `src/models.py`.  `category` is optional there
(auto-assigned by `add_product`). -/
structure Product where
  product_id : String
  name : String
  stock_quantity : ℤ
  min_threshold : ℤ
  restock_quantity : ℤ
  priority : Priority
  category : Option Category
deriving DecidableEq, Repr

/-- The pydantic validator `validate_positive_numbers`: the three
numeric fields must be non-negative for a request body to be accepted. -/
def ProductOK (p : Product) : Prop :=
  0 ≤ p.stock_quantity ∧ 0 ≤ p.min_threshold ∧ 0 ≤ p.restock_quantity

instance (p : Product) : Decidable (ProductOK p) := by
  unfold ProductOK; infer_instance

/-- Python `int(x)` on a float truncates toward zero. -/
def pyTrunc (q : ℚ) : ℤ :=
  if 0 ≤ q then ⌊q⌋ else ⌈q⌉

/-- `get_inventory_status` from `src/utils.py`. -/
def get_inventory_status (product : Product) : Status :=
  if product.stock_quantity = 0 then
    Status.out_of_stock
  else if product.stock_quantity < product.min_threshold then
    Status.below_threshold
  else
    Status.ok

/-- `should_restock` from `src/utils.py`.  The `medium` and `low`
comparisons are against `threshold * 0.5` and `threshold * 0.25`,
exact in double arithmetic and modelled over ℚ. -/
def should_restock (product : Product) : Bool :=
  if product.stock_quantity = 0 then
    true
  else if product.min_threshold ≤ product.stock_quantity then
    false
  else
    match product.priority with
    | Priority.high => decide (product.stock_quantity < product.min_threshold)
    | Priority.medium =>
        decide ((product.stock_quantity : ℚ) ≤ (product.min_threshold : ℚ) * (1 / 2))
    | Priority.low =>
        decide ((product.stock_quantity : ℚ) ≤ (product.min_threshold : ℚ) * (1 / 4))

/-- The restock-amount computation that `src/utils.py`
(`restock_if_needed`) and `src/main.py` (`manual_restock`) both inline:
`int(restock_qty * 1.2)` for high priority, else `int(restock_qty * 1.1)`
for the high_volume category, else the configured quantity. -/
def compute_restock_amount (restock_qty : ℤ) (priority : Priority)
    (category : Option Category) : ℤ :=
  if priority = Priority.high then
    pyTrunc ((restock_qty : ℚ) * (6 / 5))
  else if category = some Category.high_volume then
    pyTrunc ((restock_qty : ℚ) * (11 / 10))
  else
    restock_qty

/-- `restock_if_needed` from `src/utils.py`: mutates the product dict in
place and returns whether a restock was triggered; modelled as returning
the updated product together with the flag. -/
def restock_if_needed (product : Product) : Product × Bool :=
  if !(should_restock product) then
    (product, false)
  else
    let actual_restock :=
      compute_restock_amount product.restock_quantity product.priority product.category
    ({ product with stock_quantity := product.stock_quantity + actual_restock }, true)

/-- Exact meaning of the `stock <= threshold * 0.5` comparison over ℤ. -/
theorem cast_le_half_iff (s t : ℤ) :
    ((s : ℚ) ≤ (t : ℚ) * (1 / 2)) ↔ 2 * s ≤ t := by
  rw [← Int.cast_le (R := ℚ)]
  push_cast
  constructor <;> intro h <;> linarith

/-- Exact meaning of the `stock <= threshold * 0.25` comparison over ℤ. -/
theorem cast_le_quarter_iff (s t : ℤ) :
    ((s : ℚ) ≤ (t : ℚ) * (1 / 4)) ↔ 4 * s ≤ t := by
  rw [← Int.cast_le (R := ℚ)]
  push_cast
  constructor <;> intro h <;> linarith

/-- Claim C1: for non-negative stock and threshold, `should_restock`
returns true when stock is 0; false when stock is positive and at least
the threshold; and in the strict middle band (0 < stock < threshold) it
returns true for high priority, true for medium priority iff
stock ≤ threshold·(1/2), and true for low priority iff
stock ≤ threshold·(1/4) (the exact value of the source's floating
multiply by 0.5 resp. 0.25). -/
theorem should_restock_tiers (product : Product)
    (hs : 0 ≤ product.stock_quantity) (ht : 0 ≤ product.min_threshold) :
    (product.stock_quantity = 0 → should_restock product = true) ∧
    (0 < product.stock_quantity → product.min_threshold ≤ product.stock_quantity →
      should_restock product = false) ∧
    (0 < product.stock_quantity → product.stock_quantity < product.min_threshold →
      (product.priority = Priority.high → should_restock product = true) ∧
      (product.priority = Priority.medium →
        (should_restock product = true ↔
          2 * product.stock_quantity ≤ product.min_threshold)) ∧
      (product.priority = Priority.low →
        (should_restock product = true ↔
          4 * product.stock_quantity ≤ product.min_threshold))) := by
  refine ⟨fun h0 => by simp [should_restock, h0], fun h1 h2 => ?_, fun h1 h2 => ?_⟩
  · simp [should_restock, h1.ne', h2]
  · refine ⟨fun hp => ?_, fun hp => ?_, fun hp => ?_⟩
    · simp [should_restock, h1.ne', not_le.mpr h2, hp, h2]
    · simp only [should_restock, h1.ne', if_false, not_le.mpr h2, hp]
      simpa using cast_le_half_iff product.stock_quantity product.min_threshold
    · simp only [should_restock, h1.ne', if_false, not_le.mpr h2, hp]
      simpa using cast_le_quarter_iff product.stock_quantity product.min_threshold

/-- Witness for C1 at stock 5, threshold 10, priority medium:
the middle band applies and 2·5 ≤ 10, so restocking is triggered. -/
theorem should_restock_tiers_witness :
    should_restock
      ⟨"widget", "Widget", 5, 10, 20, Priority.medium, some Category.low_volume⟩ = true := by
  have h := should_restock_tiers
    ⟨"widget", "Widget", 5, 10, 20, Priority.medium, some Category.low_volume⟩
    (by decide) (by decide)
  exact ((h.2.2 (by decide) (by decide)).2.1 rfl).mpr (by decide)

/-- Claim C3: for non-negative stock and threshold the classifier's
answer is `out_of_stock` exactly when stock = 0, `below_threshold`
exactly when 0 < stock < threshold, and `ok` exactly when stock is
positive and at least the threshold; the three cases are mutually
exclusive and exhaustive. -/
theorem get_inventory_status_trichotomy (product : Product)
    (hs : 0 ≤ product.stock_quantity) (ht : 0 ≤ product.min_threshold) :
    (get_inventory_status product = Status.out_of_stock ↔
      product.stock_quantity = 0) ∧
    (get_inventory_status product = Status.below_threshold ↔
      0 < product.stock_quantity ∧ product.stock_quantity < product.min_threshold) ∧
    (get_inventory_status product = Status.ok ↔
      0 < product.stock_quantity ∧ product.min_threshold ≤ product.stock_quantity) := by
  unfold get_inventory_status
  split_ifs with h0 hb <;> refine ⟨?_, ?_, ?_⟩ <;> simp_all <;> omega

/-- Witness for C3 at stock 5, threshold 10: the scenario of the spec,
status below_threshold. -/
theorem get_inventory_status_trichotomy_witness :
    get_inventory_status
      ⟨"widget", "Widget", 5, 10, 20, Priority.medium, some Category.low_volume⟩ =
      Status.below_threshold := by
  have h := get_inventory_status_trichotomy
    ⟨"widget", "Widget", 5, 10, 20, Priority.medium, some Category.low_volume⟩
    (by decide) (by decide)
  exact h.2.1.mpr (by decide)

theorem pyTrunc_of_nonneg (q : ℚ) (h : 0 ≤ q) : pyTrunc q = ⌊q⌋ := if_pos h

/-- Claim C2: for non-negative restock_quantity the computed amount is
⌊restock_quantity·(6/5)⌋ for high priority, else ⌊restock_quantity·(11/10)⌋
for the high_volume category, else the quantity unchanged (truncation
toward zero coincides with the floor on this domain); in particular
100 ↦ 120 (high), 100 ↦ 110 (medium, high_volume), 100 ↦ 100
(low, low_volume). -/
theorem compute_restock_amount_spec (rq : ℤ) (h : 0 ≤ rq) (p : Priority)
    (c : Option Category) :
    (p = Priority.high →
      compute_restock_amount rq p c = ⌊(rq : ℚ) * (6 / 5)⌋) ∧
    (p ≠ Priority.high → c = some Category.high_volume →
      compute_restock_amount rq p c = ⌊(rq : ℚ) * (11 / 10)⌋) ∧
    (p ≠ Priority.high → c ≠ some Category.high_volume →
      compute_restock_amount rq p c = rq) ∧
    compute_restock_amount 100 Priority.high c = 120 ∧
    compute_restock_amount 100 Priority.medium (some Category.high_volume) = 110 ∧
    compute_restock_amount 100 Priority.low (some Category.low_volume) = 100 := by
  have hq : (0 : ℚ) ≤ (rq : ℚ) := by exact_mod_cast h
  refine ⟨fun hp => ?_, fun hp hc => ?_, fun hp hc => ?_, ?_, ?_, ?_⟩
  · rw [compute_restock_amount, if_pos hp, pyTrunc_of_nonneg _ (by positivity)]
  · rw [compute_restock_amount, if_neg hp, if_pos hc,
      pyTrunc_of_nonneg _ (by positivity)]
  · rw [compute_restock_amount, if_neg hp, if_neg hc]
  · have h120 : ((100 : ℤ) : ℚ) * (6 / 5) = ((120 : ℤ) : ℚ) := by norm_num
    rw [compute_restock_amount, if_pos rfl, pyTrunc, if_pos (by norm_num), h120,
      Int.floor_intCast]
  · have h110 : ((100 : ℤ) : ℚ) * (11 / 10) = ((110 : ℤ) : ℚ) := by norm_num
    rw [compute_restock_amount, if_neg (by decide), if_pos rfl, pyTrunc,
      if_pos (by norm_num), h110, Int.floor_intCast]
  · rw [compute_restock_amount, if_neg (by decide), if_neg (by decide)]

/-- Witness for C2 at restock_quantity 100, high priority: amount 120. -/
theorem compute_restock_amount_spec_witness :
    compute_restock_amount 100 Priority.high none = 120 :=
  (compute_restock_amount_spec 100 (by decide) Priority.high none).2.2.2.1

/-! ## The store and the HTTP handlers (`src/main.py`)

The JSON file behind `load_data`/`save_data` maps product ids to product
records; a Python dict preserves insertion order, updating an existing
key in place and appending a new one.  Each handler takes the loaded
store and returns the store as persisted when the handler finishes
(unchanged when no `save_data` call is reached) together with its HTTP
result. -/

/-- The persisted mapping from product id to product record. -/
abbrev Store := List (String × Product)

/-- Dict lookup `data[product_id]` / membership `product_id in data`. -/
def lookupStore : Store → String → Option Product
  | [], _ => none
  | e :: rest, id => if e.1 = id then some e.2 else lookupStore rest id

/-- Dict assignment `data[product_id] = product`: replace in place if the
key exists, append otherwise. -/
def setStore : Store → String → Product → Store
  | [], id, p => [(id, p)]
  | e :: rest, id, p =>
      if e.1 = id then (id, p) :: rest else e :: setStore rest id p

/-- The HTTPException outcomes raised by the handlers. -/
inductive ApiError where
  | alreadyExists
  | notFound
  | insufficientStock (available requested : ℤ)
deriving DecidableEq, Repr

/-- InventoryResponse from `src/models.py`. -/
structure InventoryResponse where
  product_id : String
  stock_quantity : ℤ
  status : Status
  priority : Priority
deriving DecidableEq, Repr

/-- ProductResponse from `src/models.py`. -/
structure ProductResponse where
  message : String
  product : Product
deriving DecidableEq, Repr

/-- PurchaseResponse from `src/models.py`. -/
structure PurchaseResponse where
  message : String
  remaining_stock : ℤ
  restock_triggered : Bool
deriving DecidableEq, Repr

/-- The dict returned by the manual-restock endpoint in `src/main.py`. -/
structure ManualRestockResponse where
  message : String
  product_id : String
  stock_before : ℤ
  stock_after : ℤ
  restock_quantity : ℤ
deriving DecidableEq, Repr

/-- `add_product` from `src/main.py`: reject an existing id; force
min_threshold to 10 for high-priority products below it; auto-assign the
category from restock_quantity; persist. -/
def add_product (data : Store) (product : Product) :
    Store × Except ApiError ProductResponse :=
  if (lookupStore data product.product_id).isSome then
    (data, Except.error ApiError.alreadyExists)
  else
    let product1 :=
      if product.priority = Priority.high ∧ product.min_threshold < 10 then
        { product with min_threshold := 10 }
      else product
    let product2 :=
      { product1 with
        category :=
          some (if 50 < product1.restock_quantity then Category.high_volume
                else Category.low_volume) }
    (setStore data product2.product_id product2,
     Except.ok ⟨"Product added successfully", product2⟩)

/-- `inventory_status` from `src/main.py` (GET /inventory/{id}). -/
def inventory_status (data : Store) (product_id : String) :
    Store × Except ApiError InventoryResponse :=
  match lookupStore data product_id with
  | none => (data, Except.error ApiError.notFound)
  | some product =>
      (data,
       Except.ok
         ⟨product.product_id, product.stock_quantity,
          get_inventory_status product, product.priority⟩)

/-- `get_all_inventory` from `src/main.py` (GET /inventory): one status
record per stored product, in store order. -/
def get_all_inventory (data : Store) : Store × List InventoryResponse :=
  (data,
   data.map fun e =>
     ⟨e.2.product_id, e.2.stock_quantity, get_inventory_status e.2, e.2.priority⟩)

/-- `purchase_product` from `src/main.py`: 404 on a missing id, 400 with
the available and requested amounts on insufficient stock; otherwise
decrement the stock, run `restock_if_needed`, persist and answer with
the remaining stock and the restock flag. -/
def purchase_product (data : Store) (product_id : String) (quantity : ℤ) :
    Store × Except ApiError PurchaseResponse :=
  match lookupStore data product_id with
  | none => (data, Except.error ApiError.notFound)
  | some product =>
      if product.stock_quantity < quantity then
        (data,
         Except.error (ApiError.insufficientStock product.stock_quantity quantity))
      else
        let product1 := { product with stock_quantity := product.stock_quantity - quantity }
        let result := restock_if_needed product1
        (setStore data product_id result.1,
         Except.ok ⟨"Purchase successful", result.1.stock_quantity, result.2⟩)

/-- `manual_restock` from `src/main.py`: 404 on a missing id; otherwise
unconditionally add the computed restock amount (the same inline
priority/category rule as `restock_if_needed`), persist, and report the
stock before and after together with the amount added. -/
def manual_restock (data : Store) (product_id : String) :
    Store × Except ApiError ManualRestockResponse :=
  match lookupStore data product_id with
  | none => (data, Except.error ApiError.notFound)
  | some product =>
      let old_stock := product.stock_quantity
      let actual_restock :=
        compute_restock_amount product.restock_quantity product.priority product.category
      let product1 :=
        { product with stock_quantity := product.stock_quantity + actual_restock }
      (setStore data product_id product1,
       Except.ok
         ⟨"Manual restock completed", product_id, old_stock,
          product1.stock_quantity, actual_restock⟩)

theorem lookupStore_setStore_self (s : Store) (id : String) (p : Product) :
    lookupStore (setStore s id p) id = some p := by
  induction s with
  | nil => simp [setStore, lookupStore]
  | cons e rest ih =>
      by_cases h : e.1 = id
      · simp [setStore, h, lookupStore]
      · simp [setStore, h, lookupStore, ih]

/-- Claim C5: with the product present and the requested quantity above
the stock, the purchase fails with the insufficient-stock error carrying
the available and requested amounts, and the persisted store is the
input store, unchanged. -/
theorem purchase_product_insufficient_spec (data : Store) (product_id : String)
    (p : Product) (quantity : ℤ)
    (hp : lookupStore data product_id = some p)
    (hq : p.stock_quantity < quantity) :
    purchase_product data product_id quantity =
      (data, Except.error (ApiError.insufficientStock p.stock_quantity quantity)) := by
  simp only [purchase_product, hp, if_pos hq]

/-- Witness for C5: requesting 7 of a product holding 5 fails and leaves
the store untouched. -/
theorem purchase_product_insufficient_spec_witness :
    purchase_product
        [("widget", ⟨"widget", "Widget", 5, 10, 20, Priority.medium,
            some Category.low_volume⟩)] "widget" 7 =
      ([("widget", ⟨"widget", "Widget", 5, 10, 20, Priority.medium,
          some Category.low_volume⟩)],
       Except.error (ApiError.insufficientStock 5 7)) :=
  purchase_product_insufficient_spec _ "widget"
    ⟨"widget", "Widget", 5, 10, 20, Priority.medium, some Category.low_volume⟩ 7
    (by rfl) (by decide)

/-- Claim C4: with the product present and 0 < quantity ≤ stock, the
purchase succeeds: the stock is decremented, `restock_if_needed` runs on
the decremented product, the result is persisted, and the response
carries the final stock and the restock flag; a purchase driving the
stock to exactly 0 triggers the restock and answers with
0 + compute_restock_amount of the product's configuration. -/
theorem purchase_product_success_spec (data : Store) (product_id : String)
    (p : Product) (quantity : ℤ)
    (hp : lookupStore data product_id = some p)
    (h0 : 0 < quantity) (hq : quantity ≤ p.stock_quantity) :
    purchase_product data product_id quantity =
      (setStore data product_id
         (restock_if_needed { p with stock_quantity := p.stock_quantity - quantity }).1,
       Except.ok
         ⟨"Purchase successful",
          (restock_if_needed
            { p with stock_quantity := p.stock_quantity - quantity }).1.stock_quantity,
          (restock_if_needed
            { p with stock_quantity := p.stock_quantity - quantity }).2⟩) ∧
    (quantity = p.stock_quantity →
      (purchase_product data product_id quantity).2 =
        Except.ok
          ⟨"Purchase successful",
           0 + compute_restock_amount p.restock_quantity p.priority p.category,
           true⟩) := by
  have hlt : ¬ p.stock_quantity < quantity := not_lt.mpr hq
  constructor
  · simp only [purchase_product, hp, if_neg hlt]
  · intro he
    have hstock : p.stock_quantity - quantity = 0 := by omega
    simp only [purchase_product, hp, if_neg hlt, restock_if_needed, should_restock,
      hstock]
    simp

/-- Witness for C4: buying all 5 widgets drives the stock to 0 and
triggers the restock, leaving 0 + 20 units. -/
theorem purchase_product_success_spec_witness :
    (purchase_product
        [("widget", ⟨"widget", "Widget", 5, 10, 20, Priority.medium,
            some Category.low_volume⟩)] "widget" 5).2 =
      Except.ok ⟨"Purchase successful", 0 + 20, true⟩ := by
  have h := (purchase_product_success_spec
      [("widget", ⟨"widget", "Widget", 5, 10, 20, Priority.medium,
          some Category.low_volume⟩)] "widget"
      ⟨"widget", "Widget", 5, 10, 20, Priority.medium, some Category.low_volume⟩ 5
      (by rfl) (by decide) (by decide)).2 rfl
  simpa [compute_restock_amount] using h

/-- Claim C6: with the product present, manual restock unconditionally
adds compute_restock_amount of the stored configuration to the stock —
whatever the current level, priority or `should_restock` verdict —
persists the updated product, and reports the stock before and after and
the amount added; it fails with NotFound exactly when the id is absent. -/
theorem manual_restock_unconditional (data : Store) (product_id : String) :
    (∀ p : Product, lookupStore data product_id = some p →
      manual_restock data product_id =
        (setStore data product_id
           { p with stock_quantity := p.stock_quantity +
               compute_restock_amount p.restock_quantity p.priority p.category },
         Except.ok
           ⟨"Manual restock completed", product_id, p.stock_quantity,
            p.stock_quantity +
              compute_restock_amount p.restock_quantity p.priority p.category,
            compute_restock_amount p.restock_quantity p.priority p.category⟩)) ∧
    (lookupStore data product_id = none ↔
      (manual_restock data product_id).2 = Except.error ApiError.notFound) := by
  constructor
  · intro p hp
    simp only [manual_restock, hp]
  · constructor
    · intro h; simp [manual_restock, h]
    · intro h
      cases hl : lookupStore data product_id with
      | none => rfl
      | some p => simp [manual_restock, hl] at h

/-- Witness for C6: the spec scenario — stock 5, restock_quantity 20,
medium priority, low_volume — manually restocked to 25 even though a
stock of 5 is being tracked. -/
theorem manual_restock_unconditional_witness :
    manual_restock
        [("widget", ⟨"widget", "Widget", 5, 10, 20, Priority.medium,
            some Category.low_volume⟩)] "widget" =
      ([("widget", ⟨"widget", "Widget", 25, 10, 20, Priority.medium,
          some Category.low_volume⟩)],
       Except.ok ⟨"Manual restock completed", "widget", 5, 25, 20⟩) := by
  have h := (manual_restock_unconditional
      [("widget", ⟨"widget", "Widget", 5, 10, 20, Priority.medium,
          some Category.low_volume⟩)] "widget").1
      ⟨"widget", "Widget", 5, 10, 20, Priority.medium, some Category.low_volume⟩
      (by rfl)
  simpa [compute_restock_amount, setStore] using h

/-- Claim C7: when the id is new, the stored min_threshold is exactly 10
for a high-priority candidate that supplied a smaller value, and the
supplied value for every other candidate. -/
theorem add_product_high_priority_threshold (data : Store) (product : Product)
    (habs : lookupStore data product.product_id = none) :
    (lookupStore (add_product data product).1 product.product_id).map
        Product.min_threshold =
      some (if product.priority = Priority.high ∧ product.min_threshold < 10
            then (10 : ℤ) else product.min_threshold) := by
  by_cases hcond : product.priority = Priority.high ∧ product.min_threshold < 10 <;>
    simp [add_product, habs, hcond, lookupStore_setStore_self]

/-- Witness for C7: a high-priority candidate with min_threshold 5 is
stored with min_threshold 10. -/
theorem add_product_high_priority_threshold_witness :
    (lookupStore
        (add_product []
          ⟨"widget", "Widget", 5, 5, 20, Priority.high, none⟩).1 "widget").map
      Product.min_threshold = some 10 := by
  have h := add_product_high_priority_threshold []
    ⟨"widget", "Widget", 5, 5, 20, Priority.high, none⟩ (by rfl)
  simpa using h

/-- Claim C8: when the id is new, the stored category is high_volume
exactly when restock_quantity > 50 and low_volume otherwise, whatever
category the caller supplied. -/
theorem add_product_category_assignment (data : Store) (product : Product)
    (habs : lookupStore data product.product_id = none) :
    (lookupStore (add_product data product).1 product.product_id).map
        Product.category =
      some (some (if 50 < product.restock_quantity then Category.high_volume
                  else Category.low_volume)) := by
  by_cases hcond : product.priority = Priority.high ∧ product.min_threshold < 10 <;>
    simp [add_product, habs, hcond, lookupStore_setStore_self]

/-- Witness for C8: restock_quantity 60 stores high_volume even though
the caller supplied low_volume. -/
theorem add_product_category_assignment_witness :
    (lookupStore
        (add_product []
          ⟨"widget", "Widget", 5, 10, 60, Priority.medium,
            some Category.low_volume⟩).1 "widget").map
      Product.category = some (some Category.high_volume) := by
  have h := add_product_category_assignment []
    ⟨"widget", "Widget", 5, 10, 60, Priority.medium, some Category.low_volume⟩
    (by rfl)
  simpa using h

/-- Claim C10: the two status endpoints never write: on every store, and
on every id (present or absent), the persisted store after
`inventory_status` and after `get_all_inventory` is exactly the input
store. -/
theorem status_handlers_read_only (data : Store) (product_id : String) :
    (inventory_status data product_id).1 = data ∧
    (get_all_inventory data).1 = data := by
  refine ⟨?_, rfl⟩
  unfold inventory_status
  cases lookupStore data product_id <;> rfl

theorem compute_restock_amount_nonneg (rq : ℤ) (h : 0 ≤ rq) (pr : Priority)
    (c : Option Category) : 0 ≤ compute_restock_amount rq pr c := by
  have hq : (0 : ℚ) ≤ (rq : ℚ) := by exact_mod_cast h
  unfold compute_restock_amount
  split_ifs with h1 h2
  · rw [pyTrunc_of_nonneg _ (by positivity)]
    exact Int.le_floor.mpr (by push_cast; positivity)
  · rw [pyTrunc_of_nonneg _ (by positivity)]
    exact Int.le_floor.mpr (by push_cast; positivity)
  · exact h

theorem mem_setStore (s : Store) (id : String) (p : Product) (x : String × Product)
    (hx : x ∈ setStore s id p) : x = (id, p) ∨ x ∈ s := by
  induction s with
  | nil => simpa [setStore] using hx
  | cons e rest ih =>
      by_cases h : e.1 = id
      · simp only [setStore, if_pos h, List.mem_cons] at hx
        rcases hx with h1 | h1
        · exact Or.inl h1
        · exact Or.inr (List.mem_cons_of_mem _ h1)
      · simp only [setStore, if_neg h, List.mem_cons] at hx
        rcases hx with h1 | h1
        · exact Or.inr (h1 ▸ List.mem_cons_self _ _)
        · rcases ih h1 with h2 | h2
          · exact Or.inl h2
          · exact Or.inr (List.mem_cons_of_mem _ h2)

theorem lookupStore_mem (s : Store) (id : String) (p : Product)
    (h : lookupStore s id = some p) : (id, p) ∈ s := by
  induction s with
  | nil => simp [lookupStore] at h
  | cons e rest ih =>
      by_cases he : e.1 = id
      · simp only [lookupStore, if_pos he, Option.some.injEq] at h
        subst he
        exact h ▸ List.mem_cons_self _ _
      · simp only [lookupStore, if_neg he] at h
        exact List.mem_cons_of_mem _ (ih h)

/-- All stored products satisfy the non-negativity validator. -/
def StoreOK (s : Store) : Prop := ∀ e ∈ s, ProductOK e.2

theorem storeOK_setStore (s : Store) (id : String) (p : Product)
    (hs : StoreOK s) (hp : ProductOK p) : StoreOK (setStore s id p) := by
  intro e he
  rcases mem_setStore s id p e he with h | h
  · rw [h]; exact hp
  · exact hs e h

theorem restock_if_needed_productOK (p : Product) (h : ProductOK p) :
    ProductOK (restock_if_needed p).1 := by
  unfold restock_if_needed
  split_ifs with hr
  · exact h
  · obtain ⟨h1, h2, h3⟩ := h
    exact ⟨add_nonneg h1
        (compute_restock_amount_nonneg p.restock_quantity h3 p.priority p.category),
      h2, h3⟩

/-- The stores reachable from the empty file by the mutating handlers,
with request bodies the pydantic validators accept: added products have
non-negative numeric fields and purchase quantities are positive. -/
inductive Reachable : Store → Prop where
  | empty : Reachable []
  | add (s : Store) (p : Product) : Reachable s → ProductOK p →
      Reachable (add_product s p).1
  | purchase (s : Store) (product_id : String) (quantity : ℤ) :
      Reachable s → 0 < quantity →
      Reachable (purchase_product s product_id quantity).1
  | manual (s : Store) (product_id : String) :
      Reachable s → Reachable (manual_restock s product_id).1

/-- Claim C9: every store reachable from the empty store by add_product,
purchase_product and manual_restock with validated inputs keeps every
product's stock_quantity, min_threshold and restock_quantity
non-negative — each operation preserves the invariant. -/
theorem reachable_store_invariant (s : Store) (h : Reachable s) : StoreOK s := by
  induction h with
  | empty => intro e he; simp at he
  | add s p _ hp ih =>
      obtain ⟨h1, h2, h3⟩ := hp
      by_cases hex : (lookupStore s p.product_id).isSome = true
      · simpa only [add_product, if_pos hex] using ih
      · by_cases hcond : p.priority = Priority.high ∧ p.min_threshold < 10
        · simp only [add_product, if_neg hex, if_pos hcond]
          exact storeOK_setStore _ _ _ ih ⟨h1, by norm_num, h3⟩
        · simp only [add_product, if_neg hex, if_neg hcond]
          exact storeOK_setStore _ _ _ ih ⟨h1, h2, h3⟩
  | purchase s product_id quantity _ hq ih =>
      cases hl : lookupStore s product_id with
      | none => simpa only [purchase_product, hl] using ih
      | some p =>
          have hpOK : ProductOK p := ih (product_id, p) (lookupStore_mem s product_id p hl)
          simp only [purchase_product, hl]
          split_ifs with hstock
          · exact ih
          · apply storeOK_setStore _ _ _ ih
            apply restock_if_needed_productOK
            obtain ⟨h1, h2, h3⟩ := hpOK
            exact ⟨by simpa using by omega, h2, h3⟩
  | manual s product_id _ ih =>
      cases hl : lookupStore s product_id with
      | none => simpa only [manual_restock, hl] using ih
      | some p =>
          have hpOK : ProductOK p := ih (product_id, p) (lookupStore_mem s product_id p hl)
          simp only [manual_restock, hl]
          apply storeOK_setStore _ _ _ ih
          obtain ⟨h1, h2, h3⟩ := hpOK
          exact ⟨add_nonneg h1
              (compute_restock_amount_nonneg p.restock_quantity h3 p.priority p.category),
            h2, h3⟩

/-- Witness for C9: add a widget, buy 3, then manually restock; the
resulting store satisfies the invariant. -/
theorem reachable_store_invariant_witness :
    StoreOK (manual_restock
      (purchase_product
        (add_product []
          ⟨"widget", "Widget", 5, 10, 20, Priority.medium,
            some Category.low_volume⟩).1 "widget" 3).1 "widget").1 :=
  reachable_store_invariant _
    (Reachable.manual _ _
      (Reachable.purchase _ _ 3
        (Reachable.add _ _ Reachable.empty (by decide))
        (by decide)))

end MiniInventory
